import Mathlib

/-!
Shallow embedding of the Webvizio MCP server (TypeScript sources
`src/webvizio-client.ts` and `src/server.ts`) and verification of the
spec claims about its error normalization and response shaping.

JavaScript values appearing in the code (axios response bodies, thrown
values, tool responses) are modelled by an explicit JSON value type with
JS truthiness; HTTP effects are modelled by outcome oracles passed to the
embedded functions, and the requests a handler issues are returned as an
explicit trace.
-/

set_option maxRecDepth 8000

/-- JSON-ish JavaScript value (axios response bodies, error `details`
payloads, tool arguments). `null` also stands for JS `undefined`. -/
inductive Json where
  | null : Json
  | bool : Bool → Json
  | num : Int → Json
  | str : String → Json
  | arr : List Json → Json
  | obj : List (String × Json) → Json

/-- JS truthiness of a value (`if (x)`). Objects and arrays are truthy;
`null`, `false`, `0` and the empty string are falsy. -/
def jsTruthy : Json → Bool
  | .null => false
  | .bool b => b
  | .num n => n != 0
  | .str s => s != ""
  | .arr _ => true
  | .obj _ => true

/-- Optional-chained member access `v?.k`: `undefined` (here `.null`) when
the receiver is not an object or lacks the key. -/
def jsGetOpt : Json → String → Json
  | .obj fs, k =>
      match fs.lookup k with
      | some v => v
      | none => .null
  | _, _ => .null

/-- Is the value a JS boolean (`typeof x === "boolean"`)? -/
def Json.isBool : Json → Bool
  | .bool _ => true
  | _ => false

mutual
/-- JS string coercion `String(x)` as used by template literals: arrays
join their elements with commas (null elements become empty), objects
display as `[object Object]`. -/
def jsDisplay : Json → String
  | .null => "null"
  | .bool b => if b then "true" else "false"
  | .num n => toString n
  | .str s => s
  | .arr xs => jsDisplayArr xs
  | .obj _ => "[object Object]"

/-- `Array.prototype.toString`: elements joined by commas, with `null`
(and `undefined`) elements rendered as the empty string. -/
def jsDisplayArr : List Json → String
  | [] => ""
  | [x] =>
      (match x with
       | .null => ""
       | v => jsDisplay v)
  | x :: xs =>
      (match x with
       | .null => ""
       | v => jsDisplay v) ++ "," ++ jsDisplayArr xs
end

/-- The display form of `x.length` used by the `Found ... tasks` /
`Found ... projects` templates: a count for arrays and strings, the
`length` field for objects that carry one, `undefined` otherwise. -/
def jsLen : Json → String
  | .arr xs => toString xs.length
  | .str s => toString s.length
  | .obj fs =>
      match fs.lookup "length" with
      | some v => jsDisplay v
      | none => "undefined"
  | _ => "undefined"

mutual
/-- Model of `JSON.stringify(v, null, 2)` at indentation `ind`. -/
def jsonStr (ind : Nat) : Json → String
  | .null => "null"
  | .bool b => if b then "true" else "false"
  | .num n => toString n
  | .str s => "\"" ++ s ++ "\""
  | .arr [] => "[]"
  | .arr xs =>
      "[\n" ++ jsonStrList (ind + 2) xs ++ "\n" ++ String.mk (List.replicate ind ' ') ++ "]"
  | .obj [] => "\x7b\x7d"
  | .obj fs =>
      "\x7b\n" ++ jsonStrFields (ind + 2) fs ++ "\n" ++ String.mk (List.replicate ind ' ') ++ "\x7d"

/-- Items of an array, one per line, `ind`-indented, comma-separated. -/
def jsonStrList (ind : Nat) : List Json → String
  | [] => ""
  | [x] => String.mk (List.replicate ind ' ') ++ jsonStr ind x
  | x :: xs =>
      String.mk (List.replicate ind ' ') ++ jsonStr ind x ++ ",\n" ++ jsonStrList ind xs

/-- Fields of an object, one per line, `ind`-indented, comma-separated. -/
def jsonStrFields (ind : Nat) : List (String × Json) → String
  | [] => ""
  | [(k, v)] => String.mk (List.replicate ind ' ') ++ "\"" ++ k ++ "\": " ++ jsonStr ind v
  | (k, v) :: fs =>
      String.mk (List.replicate ind ' ') ++ "\"" ++ k ++ "\": " ++ jsonStr ind v
        ++ ",\n" ++ jsonStrFields ind fs
end

/-- `JSON.stringify(v, null, 2)` as used by the server's templates. -/
def jsonStringify (v : Json) : String := jsonStr 0 v

/-- `McpError` from `src/types.ts`: numeric code, message, optional
details payload (`.null` details stands for an absent/undefined field). -/
structure McpError where
  code : Int
  message : String
  details : Json

/-- The three failure shapes of an `AxiosError` that
`WebvizioClient.handleApiError` branches on: a response with an error
status was received; a request was dispatched but no response arrived
(`error.request`); the request could not be constructed at all. -/
inductive AxiosFailure where
  | response (status : Nat) (statusText : String) (data : Json)
  | request (message : String)
  | setup (message : String)

/-- `WebvizioClient.handleApiError` (`src/webvizio-client.ts`): reduce an
axios failure to an `McpError`. -/
def handleApiError : AxiosFailure → McpError
  | .response status statusText data =>
      match status with
      | 401 => { code := 401, message := "Unauthorized: Invalid or missing API key", details := data }
      | 403 => { code := 403, message := "Forbidden: Access denied", details := data }
      | 404 => { code := 404, message := "Not Found: Resource not found", details := data }
      | 429 => { code := 429, message := "Rate Limit Exceeded: Too many requests", details := data }
      | 500 => { code := 500, message := "Internal Server Error: Webvizio API error", details := data }
      | st =>
          { code := st,
            message :=
              if jsTruthy (jsGetOpt data "message") then jsDisplay (jsGetOpt data "message")
              else if jsTruthy (jsGetOpt data "error") then jsDisplay (jsGetOpt data "error")
              else "HTTP " ++ toString st ++ ": " ++ statusText,
            details := data }
  | .request message =>
      { code := 0,
        message := "Network Error: Unable to reach Webvizio API",
        details := .obj [("originalError", .str message)] }
  | .setup message =>
      { code := -1,
        message := "Request Error: " ++ message,
        details := .obj [("originalError", .str message)] }

/-- A value thrown inside the client or a tool handler: a normalized
`McpError` (rejected by the axios response interceptor), a JS `Error`
with a message (`throw new Error(...)`), or any other raw value. -/
inductive Thrown where
  | mcp (e : McpError)
  | jsError (msg : String)
  | raw (v : Json)

/-- Outcome of one HTTP call through the authenticated axios instance:
either a 2xx response with a parsed body, or a failure the response
interceptor will normalize via `handleApiError`. -/
inductive HttpOutcome where
  | success (data : Json)
  | failure (e : AxiosFailure)

/-- Outcome of the screenshot's second, plain `axios.get` of the image
URL (no interceptor: a failure is rethrown as-is). -/
inductive BinaryOutcome where
  | success (bytes : List Nat)
  | failure (t : Thrown)

/-- An outbound HTTP request as constructed by the client: calls through
`this.client` carry the Authorization header and expect JSON; the
screenshot image fetch is a plain `axios.get` with `arraybuffer`. -/
structure HttpRequest where
  method : String
  path : String
  hasAuthHeader : Bool
  responseType : String
deriving DecidableEq, Repr

/-- A GET through the authenticated axios instance. -/
def clientGet (path : String) : HttpRequest :=
  { method := "GET", path := path, hasAuthHeader := true, responseType := "json" }

/-- A POST through the authenticated axios instance. -/
def clientPost (path : String) : HttpRequest :=
  { method := "POST", path := path, hasAuthHeader := true, responseType := "json" }

/-- The response interceptor: every axios failure is rejected as the
normalized `McpError`. -/
def interceptFail (e : AxiosFailure) : Thrown := .mcp (handleApiError e)

/-- Member access `v.k` without optional chaining: throws a `TypeError`
when the receiver is `null`/`undefined` (only reachable edge in
`getProjects` and `closeTask`). -/
def jsMember (v : Json) (k : String) : Except Thrown Json :=
  match v with
  | .null => .error (.jsError ("Cannot read properties of null (reading " ++ k ++ ")"))
  | other => .ok (jsGetOpt other k)

/-- `WebvizioClient.getProjects`: GET `/projects`; a falsy body is turned
into a thrown `Error(response.data.error || "Failed to fetch projects")`. -/
def getProjects (o : HttpOutcome) : List HttpRequest × Except Thrown Json :=
  ([clientGet "/projects"],
   match o with
   | .failure e => .error (interceptFail e)
   | .success d =>
       if jsTruthy d then .ok d
       else
         match jsMember d "error" with
         | .error t => .error t
         | .ok errField =>
             .error (.jsError (if jsTruthy errField then jsDisplay errField
                               else "Failed to fetch projects")))

/-- `WebvizioClient.getCurrentProject`: GET `/current-project`; a falsy
body throws `Error("Failed to fetch current project")`. -/
def getCurrentProject (o : HttpOutcome) : List HttpRequest × Except Thrown Json :=
  ([clientGet "/current-project"],
   match o with
   | .failure e => .error (interceptFail e)
   | .success d =>
       if jsTruthy d then .ok d
       else .error (.jsError "Failed to fetch current project"))

/-- `WebvizioClient.setProject`: POST `/set-project`; a falsy body throws
`Error("Failed to set project")`, otherwise the body is returned. -/
def setProject (o : HttpOutcome) : List HttpRequest × Except Thrown Json :=
  ([clientPost "/set-project"],
   match o with
   | .failure e => .error (interceptFail e)
   | .success d =>
       if jsTruthy d then .ok d
       else .error (.jsError "Failed to set project"))

/-- `WebvizioClient.getTaskPrompt`: GET `/task/{uuid}/prompt`; requires a
truthy `prompt` field, else throws `Error("Failed to get task prompt")`. -/
def getTaskPrompt (uuid : String) (o : HttpOutcome) : List HttpRequest × Except Thrown Json :=
  ([clientGet ("/task/" ++ uuid ++ "/prompt")],
   match o with
   | .failure e => .error (interceptFail e)
   | .success d =>
       let p := jsGetOpt d "prompt"
       if jsTruthy p then .ok p else .error (.jsError "Failed to get task prompt"))

/-- `WebvizioClient.getTaskDescription`: GET `/task/{uuid}`; requires a
truthy `description` field. -/
def getTaskDescription (uuid : String) (o : HttpOutcome) : List HttpRequest × Except Thrown Json :=
  ([clientGet ("/task/" ++ uuid)],
   match o with
   | .failure e => .error (interceptFail e)
   | .success d =>
       let p := jsGetOpt d "description"
       if jsTruthy p then .ok p else .error (.jsError "Failed to get task description"))

/-- `WebvizioClient.getTaskConsoleLogs`: GET `/task/{uuid}/console-logs`;
requires a truthy `prompt` field, else throws
`Error("Failed to get console logs prompt")`. -/
def getTaskConsoleLogs (uuid : String) (o : HttpOutcome) : List HttpRequest × Except Thrown Json :=
  ([clientGet ("/task/" ++ uuid ++ "/console-logs")],
   match o with
   | .failure e => .error (interceptFail e)
   | .success d =>
       let p := jsGetOpt d "prompt"
       if jsTruthy p then .ok p else .error (.jsError "Failed to get console logs prompt"))

/-- `WebvizioClient.getTaskNetworkLogs`: GET `/task/{uuid}/network-logs`;
requires a truthy `prompt` field. -/
def getTaskNetworkLogs (uuid : String) (o : HttpOutcome) : List HttpRequest × Except Thrown Json :=
  ([clientGet ("/task/" ++ uuid ++ "/network-logs")],
   match o with
   | .failure e => .error (interceptFail e)
   | .success d =>
       let p := jsGetOpt d "prompt"
       if jsTruthy p then .ok p else .error (.jsError "Failed to get network logs prompt"))

/-- `WebvizioClient.getTaskActionLogs`: GET `/task/{uuid}/action-logs`;
requires a truthy `prompt` field. -/
def getTaskActionLogs (uuid : String) (o : HttpOutcome) : List HttpRequest × Except Thrown Json :=
  ([clientGet ("/task/" ++ uuid ++ "/action-logs")],
   match o with
   | .failure e => .error (interceptFail e)
   | .success d =>
       let p := jsGetOpt d "prompt"
       if jsTruthy p then .ok p else .error (.jsError "Failed to get action logs prompt"))

/-- `WebvizioClient.closeTask`: POST `/task/{uuid}/close`; returns
`response.data.success` with no truthiness guard (a `null` body makes the
member access throw). -/
def closeTask (uuid : String) (o : HttpOutcome) : List HttpRequest × Except Thrown Json :=
  ([clientPost ("/task/" ++ uuid ++ "/close")],
   match o with
   | .failure e => .error (interceptFail e)
   | .success d => jsMember d "success")

/-- The `=== "Project not found"` strict-equality test on
`error.details?.message` used by `getTasks`, combined with the
`isMcpError` duck-typing guard (`"code" in error && "message" in error`;
a plain `Error` has no `code` property). -/
def tasksIsNoProject : Thrown → Bool
  | .mcp e =>
      match jsGetOpt e.details "message" with
      | .str s => s == "Project not found"
      | _ => false
  | .jsError _ => false
  | .raw v =>
      (match v with
       | .obj fs => (fs.lookup "code").isSome && (fs.lookup "message").isSome
       | _ => false)
      && (match jsGetOpt (jsGetOpt v "details") "message" with
          | .str s => s == "Project not found"
          | _ => false)

/-- The catch block of `WebvizioClient.getTasks`: a normalized error
whose details carry the message `"Project not found"` is converted into
the sentinel `false`; every other thrown value is rethrown. -/
def catchTasks (t : Thrown) : Except Thrown Json :=
  if tasksIsNoProject t then .ok (.bool false) else .error t

/-- `WebvizioClient.getTasks`: GET `/tasks`; a falsy body throws
`Error("Failed to fetch tasks")`; the catch block applies `catchTasks`. -/
def getTasks (o : HttpOutcome) : List HttpRequest × Except Thrown Json :=
  ([clientGet "/tasks"],
   match o with
   | .failure e => catchTasks (interceptFail e)
   | .success d =>
       if jsTruthy d then .ok d
       else catchTasks (.jsError "Failed to fetch tasks"))

/-- One item of a tool response `content` array. -/
inductive Content where
  | text (s : String)
  | image (data : String) (mimeType : String)
deriving DecidableEq, Repr

/-- The structured payload a tool handler returns to the MCP layer. -/
structure ToolResponse where
  content : List Content
  isError : Bool
deriving DecidableEq, Repr

/-- A plain text response (handlers set `isError` only via `handleError`). -/
def textResponse (s : String) : ToolResponse :=
  { content := [.text s], isError := false }

/-- `WebvizioMcpServer.isMcpError` duck-typing on a raw value: a truthy
object with both a `code` and a `message` property. -/
def isMcpErrorShaped : Json → Bool
  | .obj fs => (fs.lookup "code").isSome && (fs.lookup "message").isSome
  | _ => false

/-- The optional pretty-printed detail block appended by `handleError`
when `error.details` is truthy. -/
def detailsSuffix (d : Json) : String :=
  if jsTruthy d then "\nDetails: " ++ jsonStringify d else ""

/-- `WebvizioMcpServer.handleError` (`src/server.ts`): render any caught
value as an error-flagged response. A value passing the `isMcpError`
duck-typing is rendered as `Error <code>: <message>` plus the optional
detail block; a JS `Error` (which has `message` but no `code` property)
and any other value fall to the generic branch. -/
def handleError : Thrown → ToolResponse
  | .mcp e =>
      { content := [.text ("Error " ++ toString e.code ++ ": " ++ e.message
          ++ detailsSuffix e.details)],
        isError := true }
  | .jsError m =>
      { content := [.text ("Error: " ++ m)], isError := true }
  | .raw v =>
      if isMcpErrorShaped v then
        { content := [.text ("Error " ++ jsDisplay (jsGetOpt v "code") ++ ": "
            ++ jsDisplay (jsGetOpt v "message") ++ detailsSuffix (jsGetOpt v "details"))],
          isError := true }
      else
        { content := [.text "Error: Unknown error occurred"], isError := true }

/-- The fixed hint emitted by the `get_tasks` handler when no project is
selected. -/
def noProjectHint : String :=
  "No project selected. You need to get the list of projects via get_projects tool select the uuid of the required project and set it using set_project tool"

/-- Success formatting of the `get_tasks` handler: the hint when the
adapter result is falsy or a boolean, else the pretty-printed task list. -/
def getTasksShape (tasks : Json) : ToolResponse :=
  if !jsTruthy tasks || tasks.isBool then textResponse noProjectHint
  else textResponse ("Found " ++ jsLen tasks ++ " tasks:\n\n" ++ jsonStringify tasks)

/-- Success formatting of the `set_project` handler. -/
def setProjectText (uuid : String) (success : Json) : String :=
  if jsTruthy success then "Successfully set project " ++ uuid ++ " as current"
  else "Failed to set project " ++ uuid ++ " as current"

/-- Success formatting of the `get_task_console_logs` handler: fixed text
for a falsy result, else the logs. -/
def consoleLogsShape (logs : Json) : ToolResponse :=
  if !jsTruthy logs then textResponse "No console logs found"
  else textResponse ("Task console logs:\n\n" ++ jsDisplay logs)

/-- Success formatting of the `get_task_network_logs` handler. -/
def networkLogsShape (logs : Json) : ToolResponse :=
  if !jsTruthy logs then textResponse "No network logs found"
  else textResponse ("Task network logs:\n\n" ++ jsDisplay logs)

/-- Success formatting of the `get_task_action_logs` handler. -/
def actionLogsShape (logs : Json) : ToolResponse :=
  if !jsTruthy logs then textResponse "No action logs found"
  else textResponse ("Task action logs:\n\n" ++ jsDisplay logs)

/-- The standard base64 alphabet used by `Buffer.toString("base64")`. -/
def b64Alphabet : List Char :=
  "ABCDEFGHIJKLMNOPQRSTUVWXYZabcdefghijklmnopqrstuvwxyz0123456789+/".toList

/-- The base64 digit for a 6-bit group. -/
def b64Char (n : Nat) : Char := b64Alphabet.getD n '='

/-- The 6-bit group of a base64 digit. -/
def b64Index (c : Char) : Nat := b64Alphabet.indexOf c

/-- RFC 4648 base64 encoding of a byte sequence with `=` padding, as
produced by `Buffer.from(bytes).toString("base64")`. -/
def base64Encode : List Nat → List Char
  | [] => []
  | [a] => [b64Char (a / 4), b64Char (a % 4 * 16), '=', '=']
  | [a, b] => [b64Char (a / 4), b64Char (a % 4 * 16 + b / 16), b64Char (b % 16 * 4), '=']
  | a :: b :: c :: rest =>
      b64Char (a / 4) :: b64Char (a % 4 * 16 + b / 16) :: b64Char (b % 16 * 4 + c / 64)
        :: b64Char (c % 64) :: base64Encode rest

/-- Base64 decoding of a padded base64 text back to bytes. -/
def base64Decode : List Char → List Nat
  | c1 :: c2 :: c3 :: c4 :: rest =>
      if c4 = '=' then
        if c3 = '=' then [b64Index c1 * 4 + b64Index c2 / 16]
        else [b64Index c1 * 4 + b64Index c2 / 16, b64Index c2 % 16 * 16 + b64Index c3 / 4]
      else
        (b64Index c1 * 4 + b64Index c2 / 16)
          :: (b64Index c2 % 16 * 16 + b64Index c3 / 4)
          :: (b64Index c3 % 4 * 64 + b64Index c4)
          :: base64Decode rest
  | _ => []

/-- `WebvizioClient.getTaskScreenshot`: GET `/task/{uuid}/screenshot`,
then a second plain `axios.get` of the returned `screenshot` URL with
`responseType: "arraybuffer"` and no auth header, re-encoded as base64.
A missing/falsy `screenshot` field throws
`Error("Failed to get task screenshot")`. -/
def getTaskScreenshot (uuid : String) (o : HttpOutcome) (img : String → BinaryOutcome) :
    List HttpRequest × Except Thrown String :=
  let metaReq := clientGet ("/task/" ++ uuid ++ "/screenshot")
  match o with
  | .failure e => ([metaReq], .error (interceptFail e))
  | .success d =>
      let scr := jsGetOpt d "screenshot"
      if jsTruthy scr then
        let url := jsDisplay scr
        let imgReq : HttpRequest :=
          { method := "GET", path := url, hasAuthHeader := false, responseType := "arraybuffer" }
        match img url with
        | .success bytes => ([metaReq, imgReq], .ok (String.mk (base64Encode bytes)))
        | .failure t => ([metaReq, imgReq], .error t)
      else ([metaReq], .error (.jsError "Failed to get task screenshot"))

/-- One of the 11 registered tool invocations, with its parsed arguments
(`uuid` where the input schema declares one). -/
inductive ToolCall where
  | get_projects
  | get_current_project
  | set_project (uuid : String)
  | get_tasks
  | get_task_description (uuid : String)
  | get_task_prompt (uuid : String)
  | get_task_console_logs (uuid : String)
  | get_task_network_logs (uuid : String)
  | get_task_action_logs (uuid : String)
  | get_task_screenshot (uuid : String)
  | close_task (uuid : String)

/-- The network oracle for one invocation: the outcome of the tool's
primary endpoint call, and of the screenshot image fetch by URL. -/
structure Net where
  primary : HttpOutcome
  image : String → BinaryOutcome

/-- A `Net` whose image oracle is never consulted (non-screenshot tools). -/
def mkNet (o : HttpOutcome) : Net :=
  { primary := o, image := fun _ => .failure (.jsError "no image fetch") }

/-- The tool dispatcher (`WebvizioMcpServer.setupTools`): each handler
calls its client operation and shapes the result; every thrown value is
caught and rendered by `handleError`. Returns the response together with
the trace of HTTP requests issued. -/
def dispatch (c : ToolCall) (net : Net) : ToolResponse × List HttpRequest :=
  match c with
  | .get_projects =>
      let r := getProjects net.primary
      ((match r.2 with
        | .ok projects =>
            textResponse ("Found " ++ jsLen projects ++ " projects:\n\n" ++ jsonStringify projects)
        | .error t => handleError t), r.1)
  | .get_current_project =>
      let r := getCurrentProject net.primary
      ((match r.2 with
        | .ok p => textResponse ("Current project details:\n\n" ++ jsonStringify p)
        | .error t => handleError t), r.1)
  | .set_project uuid =>
      if uuid = "" then (handleError (.jsError "project uuid is required"), [])
      else
        let r := setProject net.primary
        ((match r.2 with
          | .ok success => textResponse (setProjectText uuid success)
          | .error t => handleError t), r.1)
  | .get_tasks =>
      let r := getTasks net.primary
      ((match r.2 with
        | .ok tasks => getTasksShape tasks
        | .error t => handleError t), r.1)
  | .get_task_description uuid =>
      let r := getTaskDescription uuid net.primary
      ((match r.2 with
        | .ok d => textResponse ("Task description:\n\n" ++ jsDisplay d)
        | .error t => handleError t), r.1)
  | .get_task_prompt uuid =>
      let r := getTaskPrompt uuid net.primary
      ((match r.2 with
        | .ok p => textResponse ("Task prompt:\n\n" ++ jsDisplay p)
        | .error t => handleError t), r.1)
  | .get_task_console_logs uuid =>
      let r := getTaskConsoleLogs uuid net.primary
      ((match r.2 with
        | .ok logs => consoleLogsShape logs
        | .error t => handleError t), r.1)
  | .get_task_network_logs uuid =>
      let r := getTaskNetworkLogs uuid net.primary
      ((match r.2 with
        | .ok logs => networkLogsShape logs
        | .error t => handleError t), r.1)
  | .get_task_action_logs uuid =>
      let r := getTaskActionLogs uuid net.primary
      ((match r.2 with
        | .ok logs => actionLogsShape logs
        | .error t => handleError t), r.1)
  | .get_task_screenshot uuid =>
      let r := getTaskScreenshot uuid net.primary net.image
      ((match r.2 with
        | .ok scr => { content := [.image scr "image/png"], isError := false }
        | .error t => handleError t), r.1)
  | .close_task uuid =>
      let r := closeTask uuid net.primary
      ((match r.2 with
        | .ok _ => textResponse "Task closed successfully"
        | .error t => handleError t), r.1)

/-- Arguments that pass the local validation a handler performs before
calling the adapter (only `set_project` rejects an empty uuid). -/
def wellFormedArgs : ToolCall → Prop
  | .set_project uuid => uuid ≠ ""
  | _ => True

/-- The network oracle of a successful screenshot flow: the metadata call
returns an object carrying the image URL, and fetching exactly that URL
yields the image bytes. -/
def screenshotNet (url : String) (bytes : List Nat) : Net :=
  { primary := .success (.obj [("screenshot", .str url)]),
    image := fun u => if u = url then .success bytes else .failure (.jsError "wrong url") }

/-- The base64 digit table is injective on 6-bit groups. -/
theorem b64Index_b64Char : ∀ n < 64, b64Index (b64Char n) = n := by decide

/-- A base64 digit of a 6-bit group is never the padding character. -/
theorem b64Char_ne_pad : ∀ n < 64, b64Char n ≠ '=' := by decide

/-- Decoding inverts encoding on any byte sequence. -/
theorem base64_roundtrip : ∀ (bs : List Nat), (∀ x ∈ bs, x < 256) →
    base64Decode (base64Encode bs) = bs
  | [], _ => rfl
  | [a], h => by
      have ha : a < 256 := h a (by simp)
      have h1 : a / 4 < 64 := by omega
      have h2 : a % 4 * 16 < 64 := by omega
      simp only [base64Encode, base64Decode, if_pos]
      rw [b64Index_b64Char _ h1, b64Index_b64Char _ h2]
      simp only [List.cons.injEq, and_true]
      omega
  | [a, b], h => by
      have ha : a < 256 := h a (by simp)
      have hb : b < 256 := h b (by simp)
      have h1 : a / 4 < 64 := by omega
      have h2 : a % 4 * 16 + b / 16 < 64 := by omega
      have h3 : b % 16 * 4 < 64 := by omega
      have hne : b64Char (b % 16 * 4) ≠ '=' := b64Char_ne_pad _ h3
      simp only [base64Encode, base64Decode, if_pos, if_neg hne]
      rw [b64Index_b64Char _ h1, b64Index_b64Char _ h2, b64Index_b64Char _ h3]
      simp only [List.cons.injEq, and_true]
      omega
  | a :: b :: c :: rest, h => by
      have ha : a < 256 := h a (by simp)
      have hb : b < 256 := h b (by simp)
      have hc : c < 256 := h c (by simp)
      have ih := base64_roundtrip rest (fun x hx => h x (by simp [hx]))
      have h1 : a / 4 < 64 := by omega
      have h2 : a % 4 * 16 + b / 16 < 64 := by omega
      have h3 : b % 16 * 4 + c / 64 < 64 := by omega
      have h4 : c % 64 < 64 := by omega
      have hne : b64Char (c % 64) ≠ '=' := b64Char_ne_pad _ h4
      simp only [base64Encode, base64Decode, if_neg hne]
      rw [b64Index_b64Char _ h1, b64Index_b64Char _ h2, b64Index_b64Char _ h3,
        b64Index_b64Char _ h4, ih]
      simp only [List.cons.injEq, and_true]
      refine ⟨?_, ?_, ?_⟩ <;> omega

/-- Rewriting the left part of a string concatenation. -/
theorem string_append_congr {a b : String} (c : String) (h : a = b) : a ++ c = b ++ c := by
  rw [h]

/-- C1: the Transport Adapter's error reduction maps each raw failure to
a Normalized Error: a received response passes its HTTP status through as
the code verbatim and attaches the body as detail; 401/403/404/429/500
get their fixed messages; any other status gets a message extracted from
the body's `message` or `error` field or a generic `HTTP <status>`
string; no response received gives code 0; an unconstructable request
gives code -1. -/
theorem C1_error_reduction :
    (∀ (st : Nat) (stTxt : String) (d : Json),
        (handleApiError (.response st stTxt d)).code = st
        ∧ (handleApiError (.response st stTxt d)).details = d)
    ∧ (∀ (stTxt : String) (d : Json),
        (handleApiError (.response 401 stTxt d)).message = "Unauthorized: Invalid or missing API key")
    ∧ (∀ (stTxt : String) (d : Json),
        (handleApiError (.response 403 stTxt d)).message = "Forbidden: Access denied")
    ∧ (∀ (stTxt : String) (d : Json),
        (handleApiError (.response 404 stTxt d)).message = "Not Found: Resource not found")
    ∧ (∀ (stTxt : String) (d : Json),
        (handleApiError (.response 429 stTxt d)).message = "Rate Limit Exceeded: Too many requests")
    ∧ (∀ (stTxt : String) (d : Json),
        (handleApiError (.response 500 stTxt d)).message = "Internal Server Error: Webvizio API error")
    ∧ (∀ (st : Nat) (stTxt : String) (d : Json), st ∉ ([401, 403, 404, 429, 500] : List Nat) →
        (handleApiError (.response st stTxt d)).message =
          (if jsTruthy (jsGetOpt d "message") then jsDisplay (jsGetOpt d "message")
           else if jsTruthy (jsGetOpt d "error") then jsDisplay (jsGetOpt d "error")
           else "HTTP " ++ toString st ++ ": " ++ stTxt))
    ∧ (∀ (st : Nat) (stTxt : String) (d : Json), st ∉ ([401, 403, 404, 429, 500] : List Nat) →
        jsTruthy (jsGetOpt d "message") = false → jsTruthy (jsGetOpt d "error") = false →
        ∃ rest, (handleApiError (.response st stTxt d)).message = ("HTTP " ++ toString st) ++ rest)
    ∧ (∀ m, (handleApiError (.request m)).code = 0)
    ∧ (∀ m, (handleApiError (.setup m)).code = -1) := by
  refine ⟨?_, ?_, ?_, ?_, ?_, ?_, ?_, ?_, ?_, ?_⟩
  · intro st stTxt d
    constructor <;> (simp only [handleApiError]; split <;> simp_all)
  · intro stTxt d; rfl
  · intro stTxt d; rfl
  · intro stTxt d; rfl
  · intro stTxt d; rfl
  · intro stTxt d; rfl
  · intro st stTxt d hst
    simp only [handleApiError]
    split <;> simp_all
  · intro st stTxt d hst hm he
    refine ⟨": " ++ stTxt, ?_⟩
    simp only [handleApiError]
    split <;> simp_all [String.append_assoc]
  · intro m; rfl
  · intro m; rfl

/-- Witness for C1 at concrete inputs: a 418 response with an empty body
yields the generic `HTTP 418` message, and the non-response branches give
codes 0 and -1. -/
theorem C1_error_reduction_witness :
    (418 : Nat) ∉ ([401, 403, 404, 429, 500] : List Nat)
    ∧ (handleApiError (.response 418 "teapot" .null)).message = "HTTP 418: teapot"
    ∧ (∃ rest, (handleApiError (.response 418 "teapot" .null)).message = ("HTTP " ++ toString 418) ++ rest)
    ∧ (handleApiError (.request "timeout")).code = 0 := by
  refine ⟨by decide, ?_, ?_, ?_⟩
  · have h := C1_error_reduction.2.2.2.2.2.2.1 418 "teapot" .null (by decide)
    simpa using h
  · exact C1_error_reduction.2.2.2.2.2.2.2.1 418 "teapot" .null (by decide) rfl rfl
  · exact C1_error_reduction.2.2.2.2.2.2.2.2.1 "timeout"

/-- C2: for `get_tasks` only, a failure whose normalized details carry
the message `"Project not found"` makes the adapter return the sentinel
`false` instead of propagating, and the dispatcher emits the non-error
project-selection hint; any other failure is rendered as an error
response. -/
theorem C2_get_tasks_project_not_found : ∀ (f : AxiosFailure),
    (jsGetOpt (handleApiError f).details "message" = .str "Project not found" →
        (getTasks (.failure f)).2 = .ok (.bool false)
        ∧ (dispatch .get_tasks (mkNet (.failure f))).1 = textResponse noProjectHint
        ∧ (dispatch .get_tasks (mkNet (.failure f))).1.isError = false)
    ∧ (jsGetOpt (handleApiError f).details "message" ≠ .str "Project not found" →
        (dispatch .get_tasks (mkNet (.failure f))).1 = handleError (.mcp (handleApiError f))
        ∧ (dispatch .get_tasks (mkNet (.failure f))).1.isError = true) := by
  intro f
  constructor
  · intro h
    have ht : tasksIsNoProject (interceptFail f) = true := by
      simp [tasksIsNoProject, interceptFail, h]
    refine ⟨?_, ?_, ?_⟩ <;>
      simp [dispatch, getTasks, mkNet, catchTasks, ht, getTasksShape, Json.isBool, jsTruthy,
        textResponse]
  · intro h
    have ht : tasksIsNoProject (.mcp (handleApiError f)) = false := by
      simp only [tasksIsNoProject]
      cases hm : jsGetOpt (handleApiError f).details "message" <;> simp_all
    constructor
    · simp [dispatch, getTasks, mkNet, catchTasks, ht, interceptFail]
    · simp [dispatch, getTasks, mkNet, catchTasks, ht, interceptFail, handleError]

/-- Witness for C2: a 404 whose body message is `"Project not found"`
yields the hint; a plain network failure yields an error response. -/
theorem C2_get_tasks_project_not_found_witness :
    jsGetOpt (handleApiError (.response 404 "Not Found"
        (.obj [("message", .str "Project not found")]))).details "message"
      = .str "Project not found"
    ∧ (dispatch .get_tasks (mkNet (.failure (.response 404 "Not Found"
        (.obj [("message", .str "Project not found")]))))).1 = textResponse noProjectHint
    ∧ (dispatch .get_tasks (mkNet (.failure (.request "timeout")))).1.isError = true := by
  refine ⟨rfl, ?_, ?_⟩
  · exact ((C2_get_tasks_project_not_found (.response 404 "Not Found"
      (.obj [("message", .str "Project not found")]))).1 rfl).2.1
  · refine ((C2_get_tasks_project_not_found (.request "timeout")).2 ?_).2
    intro hh
    simp [handleApiError, jsGetOpt, List.lookup] at hh

/-- C3 counterexample: a 401 response whose body carries the message
`"Project not found"` does NOT make `get_tasks` return an error response:
the handler emits the non-error project-selection hint instead. -/
theorem C3_counterexample :
    (dispatch .get_tasks (mkNet (.failure (.response 401 "Unauthorized"
        (.obj [("message", .str "Project not found")]))))).1
      = textResponse noProjectHint
    ∧ (dispatch .get_tasks (mkNet (.failure (.response 401 "Unauthorized"
        (.obj [("message", .str "Project not found")]))))).1.isError = false := by
  constructor <;> rfl

/-- `handleError` on a normalized 401 renders the fixed text plus the
optional detail block. -/
theorem handleError_401 (d : Json) :
    handleError
        (.mcp
          { code := 401, message := "Unauthorized: Invalid or missing API key", details := d })
      = { content := [.text ("Error 401: Unauthorized: Invalid or missing API key"
            ++ detailsSuffix d)],
          isError := true } := by
  simp only [handleError]
  rw [string_append_congr (detailsSuffix d)
    (show "Error " ++ toString (401 : Int) ++ ": "
        ++ "Unauthorized: Invalid or missing API key"
      = "Error 401: Unauthorized: Invalid or missing API key" by decide)]

/-- C3 amended: for every tool whose arguments pass local validation, a
401 response from the service yields an error-flagged response rendering
code 401 and the fixed Unauthorized message — except `get_tasks` when the
401 body's `message` field is exactly `"Project not found"`, where the
non-error project-selection hint is returned instead. -/
theorem C3_all_tools_401 : ∀ (c : ToolCall) (stTxt : String) (d : Json),
    wellFormedArgs c →
    (c = .get_tasks → jsGetOpt d "message" ≠ .str "Project not found") →
    (dispatch c (mkNet (.failure (.response 401 stTxt d)))).1
        = { content := [.text ("Error 401: Unauthorized: Invalid or missing API key"
              ++ detailsSuffix d)],
            isError := true }
    ∧ (dispatch c (mkNet (.failure (.response 401 stTxt d)))).1.isError = true := by
  intro c stTxt d hwf hex
  have hae : handleApiError (.response 401 stTxt d)
      = { code := 401, message := "Unauthorized: Invalid or missing API key", details := d } :=
    rfl
  have hmain : (dispatch c (mkNet (.failure (.response 401 stTxt d)))).1
      = handleError
          (.mcp
            { code := 401, message := "Unauthorized: Invalid or missing API key",
              details := d }) := by
    cases c with
    | set_project uuid =>
        simp only [wellFormedArgs] at hwf
        simp [dispatch, mkNet, setProject, interceptFail, hae, hwf]
    | get_tasks =>
        have hne := hex rfl
        have hnp : tasksIsNoProject (.mcp (handleApiError (.response 401 stTxt d))) = false := by
          simp only [tasksIsNoProject, hae]
          cases hm : jsGetOpt d "message" <;> simp_all
        rw [hae] at hnp
        simp [dispatch, mkNet, getTasks, catchTasks, interceptFail, hnp, hae]
    | get_projects => simp [dispatch, mkNet, getProjects, interceptFail, hae]
    | get_current_project => simp [dispatch, mkNet, getCurrentProject, interceptFail, hae]
    | get_task_description uuid =>
        simp [dispatch, mkNet, getTaskDescription, interceptFail, hae]
    | get_task_prompt uuid => simp [dispatch, mkNet, getTaskPrompt, interceptFail, hae]
    | get_task_console_logs uuid =>
        simp [dispatch, mkNet, getTaskConsoleLogs, interceptFail, hae]
    | get_task_network_logs uuid =>
        simp [dispatch, mkNet, getTaskNetworkLogs, interceptFail, hae]
    | get_task_action_logs uuid =>
        simp [dispatch, mkNet, getTaskActionLogs, interceptFail, hae]
    | get_task_screenshot uuid =>
        simp [dispatch, mkNet, getTaskScreenshot, interceptFail, hae]
    | close_task uuid => simp [dispatch, mkNet, closeTask, interceptFail, hae]
  rw [hmain, handleError_401]
  exact ⟨rfl, rfl⟩

/-- Witness for C3 amended: `get_task_prompt` on a 401 with a null body
yields the error response with the fixed Unauthorized text. -/
theorem C3_all_tools_401_witness :
    wellFormedArgs (.get_task_prompt "t1")
    ∧ (dispatch (.get_task_prompt "t1") (mkNet (.failure (.response 401 "U" .null)))).1
        = { content := [.text "Error 401: Unauthorized: Invalid or missing API key"],
            isError := true } := by
  constructor
  · trivial
  · have h := (C3_all_tools_401 (.get_task_prompt "t1") "U" .null trivial
      (fun hh => ToolCall.noConfusion hh)).1
    simpa [detailsSuffix, jsTruthy] using h

/-- C4: the `set_project` handler's success formatting is exactly
`Successfully set project <id> as current` for a truthy adapter result
and `Failed to set project <id> as current` for a falsy one, and a
truthy successful call surfaces the success sentence end to end. -/
theorem C4_set_project_text : ∀ (uuid : String) (s : Json),
    (jsTruthy s = true →
        setProjectText uuid s = "Successfully set project " ++ uuid ++ " as current")
    ∧ (jsTruthy s = false →
        setProjectText uuid s = "Failed to set project " ++ uuid ++ " as current")
    ∧ (uuid ≠ "" → jsTruthy s = true →
        (dispatch (.set_project uuid) (mkNet (.success s))).1
          = textResponse ("Successfully set project " ++ uuid ++ " as current")) := by
  intro uuid s
  refine ⟨?_, ?_, ?_⟩
  · intro h; simp [setProjectText, h]
  · intro h; simp [setProjectText, h]
  · intro hne h
    simp [dispatch, mkNet, setProject, hne, h, setProjectText]

/-- Witness for C4 at `proj-123`: both formatting branches and the
end-to-end success path at concrete inputs. -/
theorem C4_set_project_text_witness :
    setProjectText "proj-123" (.bool true) = "Successfully set project proj-123 as current"
    ∧ setProjectText "proj-123" (.bool false) = "Failed to set project proj-123 as current"
    ∧ (dispatch (.set_project "proj-123") (mkNet (.success (.bool true)))).1
        = textResponse "Successfully set project proj-123 as current" := by
  refine ⟨?_, ?_, ?_⟩
  · exact (C4_set_project_text "proj-123" (.bool true)).1 rfl
  · exact (C4_set_project_text "proj-123" (.bool false)).2.1 rfl
  · exact (C4_set_project_text "proj-123" (.bool true)).2.2 (by decide) rfl

/-- C5 counterexample: a successful transport response whose `prompt`
field is empty does NOT yield the fixed `No console logs found` text —
the adapter throws and the tool returns an error-flagged response. -/
theorem C5_counterexample :
    (dispatch (.get_task_console_logs "t1") (mkNet (.success (.obj [("prompt", .str "")])))).1
      = { content := [.text "Error: Failed to get console logs prompt"], isError := true }
    ∧ (dispatch (.get_task_console_logs "t1")
        (mkNet (.success (.obj [("prompt", .str "")])))).1
      ≠ textResponse "No console logs found" := by
  constructor
  · rfl
  · decide

/-- C5 amended: a successful transport response with an empty/falsy
`prompt` field makes each log adapter throw its generic failure, and the
tool yields an error response `Error: Failed to get <kind> logs prompt`;
the handlers' fixed `No <kind> logs found` text is emitted only for a
falsy adapter result, which the adapter never produces. -/
theorem C5_empty_logs : ∀ (uuid : String) (d : Json),
    (jsTruthy (jsGetOpt d "prompt") = false →
        (dispatch (.get_task_console_logs uuid) (mkNet (.success d))).1
          = { content := [.text "Error: Failed to get console logs prompt"], isError := true }
        ∧ (dispatch (.get_task_network_logs uuid) (mkNet (.success d))).1
          = { content := [.text "Error: Failed to get network logs prompt"], isError := true }
        ∧ (dispatch (.get_task_action_logs uuid) (mkNet (.success d))).1
          = { content := [.text "Error: Failed to get action logs prompt"], isError := true })
    ∧ (∀ logs : Json, jsTruthy logs = false →
        consoleLogsShape logs = textResponse "No console logs found"
        ∧ networkLogsShape logs = textResponse "No network logs found"
        ∧ actionLogsShape logs = textResponse "No action logs found")
    ∧ (∀ (o : HttpOutcome) (r : Json),
        (getTaskConsoleLogs uuid o).2 = .ok r → jsTruthy r = true) := by
  intro uuid d
  refine ⟨?_, ?_, ?_⟩
  · intro h
    refine ⟨?_, ?_, ?_⟩ <;>
      simp [dispatch, mkNet, getTaskConsoleLogs, getTaskNetworkLogs, getTaskActionLogs, h,
        handleError]
  · intro logs h
    refine ⟨?_, ?_, ?_⟩ <;>
      simp [consoleLogsShape, networkLogsShape, actionLogsShape, h]
  · intro o r h
    cases o with
    | failure e => simp [getTaskConsoleLogs] at h
    | success dd =>
        simp only [getTaskConsoleLogs] at h
        split at h
        · cases h
          assumption
        · cases h

/-- Witness for C5: concrete empty payload and the dead falsy branch at
an empty string result. -/
theorem C5_empty_logs_witness :
    (dispatch (.get_task_network_logs "t2") (mkNet (.success (.obj [])))).1
      = { content := [.text "Error: Failed to get network logs prompt"], isError := true }
    ∧ consoleLogsShape (.str "") = textResponse "No console logs found"
    ∧ jsTruthy ((getTaskConsoleLogs "t2" (.success (.obj [("prompt", .str "log line")]))).2.toOption.getD .null)
      = true := by
  refine ⟨?_, ?_, ?_⟩
  · exact ((C5_empty_logs "t2" (.obj [])).1 rfl).2.1
  · exact ((C5_empty_logs "t2" (.obj [])).2.1 (.str "") rfl).1
  · exact (C5_empty_logs "t2" (.obj [])).2.2 (.success (.obj [("prompt", .str "log line")]))
      (.str "log line") rfl

/-- C6 counterexample: invoking `get_task_prompt` with an empty
identifier does NOT fail locally — a network request
`GET /task//prompt` is dispatched to the adapter. -/
theorem C6_counterexample :
    (dispatch (.get_task_prompt "") (mkNet (.success .null))).2
      = [clientGet "/task//prompt"]
    ∧ (dispatch (.get_task_prompt "") (mkNet (.success .null))).2 ≠ [] := by
  constructor
  · rfl
  · decide

/-- C6 amended: only `set_project` validates an empty identifier locally
(no request is issued and a local validation error is rendered); every
other task-scoped tool passes any identifier, including the empty string,
to the adapter, which issues the corresponding network request. -/
theorem C6_empty_identifier : ∀ (net : Net) (uuid : String),
    ((dispatch (.set_project "") net).1 = handleError (.jsError "project uuid is required")
      ∧ (dispatch (.set_project "") net).2 = [])
    ∧ (dispatch (.get_task_description uuid) net).2 = [clientGet ("/task/" ++ uuid)]
    ∧ (dispatch (.get_task_prompt uuid) net).2 = [clientGet ("/task/" ++ uuid ++ "/prompt")]
    ∧ (dispatch (.get_task_console_logs uuid) net).2
        = [clientGet ("/task/" ++ uuid ++ "/console-logs")]
    ∧ (dispatch (.get_task_network_logs uuid) net).2
        = [clientGet ("/task/" ++ uuid ++ "/network-logs")]
    ∧ (dispatch (.get_task_action_logs uuid) net).2
        = [clientGet ("/task/" ++ uuid ++ "/action-logs")]
    ∧ (dispatch (.close_task uuid) net).2 = [clientPost ("/task/" ++ uuid ++ "/close")]
    ∧ (dispatch (.get_task_screenshot uuid) net).2 ≠ [] := by
  intro net uuid
  refine ⟨⟨rfl, rfl⟩, rfl, rfl, rfl, rfl, rfl, rfl, ?_⟩
  cases hp : net.primary with
  | failure e => simp [dispatch, getTaskScreenshot, hp]
  | success d =>
      simp only [dispatch, getTaskScreenshot, hp]
      by_cases hs : jsTruthy (jsGetOpt d "screenshot") = true
      · simp only [hs, if_true]
        cases net.image (jsDisplay (jsGetOpt d "screenshot")) <;> simp
      · simp [hs]

/-- Witness for C6 amended at concrete inputs: `set_project` with an
empty uuid issues no request; `close_task` with an empty uuid issues one. -/
theorem C6_empty_identifier_witness :
    (dispatch (.set_project "") (mkNet (.success .null))).2 = []
    ∧ (dispatch (.close_task "") (mkNet (.success .null))).2 = [clientPost "/task//close"]
    ∧ (dispatch (.get_task_screenshot "") (mkNet (.success .null))).2 ≠ [] := by
  refine ⟨?_, ?_, ?_⟩
  · exact (C6_empty_identifier (mkNet (.success .null)) "").1.2
  · exact (C6_empty_identifier (mkNet (.success .null)) "").2.2.2.2.2.2.1
  · exact (C6_empty_identifier (mkNet (.success .null)) "").2.2.2.2.2.2.2

/-- C7: given a successful metadata response with an image URL and a
successful binary fetch of that URL returning bytes `b`, the tool's
output is a base64 PNG image payload whose data decodes back to exactly
`b`, and the second request is an unauthenticated GET of the URL with a
binary (`arraybuffer`) response type. -/
theorem C7_screenshot_roundtrip : ∀ (uuid url : String) (bytes : List Nat),
    url ≠ "" → (∀ x ∈ bytes, x < 256) →
    (dispatch (.get_task_screenshot uuid) (screenshotNet url bytes)).1
        = { content := [.image (String.mk (base64Encode bytes)) "image/png"], isError := false }
    ∧ (dispatch (.get_task_screenshot uuid) (screenshotNet url bytes)).2
        = [clientGet ("/task/" ++ uuid ++ "/screenshot"),
           { method := "GET", path := url, hasAuthHeader := false,
             responseType := "arraybuffer" }]
    ∧ base64Decode (base64Encode bytes) = bytes := by
  intro uuid url bytes hurl hb
  have hs : jsTruthy (Json.str url) = true := by
    simp [jsTruthy, hurl]
  refine ⟨?_, ?_, base64_roundtrip bytes hb⟩ <;>
    simp [dispatch, screenshotNet, getTaskScreenshot, hs, jsDisplay, jsGetOpt, List.lookup]

/-- Witness for C7: a concrete PNG-magic byte sequence round-trips and is
emitted as a base64 PNG image payload. -/
theorem C7_screenshot_roundtrip_witness :
    base64Decode (base64Encode [137, 80, 78, 71]) = [137, 80, 78, 71]
    ∧ (dispatch (.get_task_screenshot "t9")
        (screenshotNet "https://img.example/x.png" [137, 80, 78, 71])).1
      = { content := [.image (String.mk (base64Encode [137, 80, 78, 71])) "image/png"],
          isError := false } := by
  constructor
  · exact (C7_screenshot_roundtrip "t9" "https://img.example/x.png" [137, 80, 78, 71]
      (by decide) (by decide)).2.2
  · exact (C7_screenshot_roundtrip "t9" "https://img.example/x.png" [137, 80, 78, 71]
      (by decide) (by decide)).1

/-- C8: whenever the `closeTask` adapter call succeeds, whatever value
the remote `success` field held, the tool output is the fixed
confirmation text `Task closed successfully`. -/
theorem C8_close_task_fixed_text : ∀ (uuid : String) (o : HttpOutcome) (r : Json),
    (closeTask uuid o).2 = .ok r →
    (dispatch (.close_task uuid) (mkNet o)).1 = textResponse "Task closed successfully" := by
  intro uuid o r h
  simp only [dispatch, mkNet]
  rw [h]

/-- Witness for C8: a remote close that reports `success: false` still
yields the fixed confirmation text. -/
theorem C8_close_task_fixed_text_witness :
    (closeTask "t3" (.success (.obj [("success", .bool false)]))).2 = .ok (.bool false)
    ∧ (dispatch (.close_task "t3") (mkNet (.success (.obj [("success", .bool false)])))).1
        = textResponse "Task closed successfully" := by
  refine ⟨rfl, ?_⟩
  exact C8_close_task_fixed_text "t3" (.success (.obj [("success", .bool false)]))
    (.bool false) rfl

/-- Every rendered error response carries exactly one content item. -/
theorem handleError_content_length (t : Thrown) : (handleError t).content.length = 1 := by
  cases t with
  | mcp e => rfl
  | jsError m => rfl
  | raw v =>
      simp only [handleError]
      split <;> rfl

/-- The `get_tasks` success formatting carries one content item. -/
theorem getTasksShape_content_length (r : Json) : (getTasksShape r).content.length = 1 := by
  simp only [getTasksShape]
  split <;> rfl

/-- The console-logs success formatting carries one content item. -/
theorem consoleLogsShape_content_length (r : Json) :
    (consoleLogsShape r).content.length = 1 := by
  simp only [consoleLogsShape]
  split <;> rfl

/-- The network-logs success formatting carries one content item. -/
theorem networkLogsShape_content_length (r : Json) :
    (networkLogsShape r).content.length = 1 := by
  simp only [networkLogsShape]
  split <;> rfl

/-- The action-logs success formatting carries one content item. -/
theorem actionLogsShape_content_length (r : Json) :
    (actionLogsShape r).content.length = 1 := by
  simp only [actionLogsShape]
  split <;> rfl

/-- C9: every thrown value is rendered by `handleError` as an
error-flagged structured payload — `Error <code>: <message>` plus an
optional detail block for duck-typed normalized errors, the generic
`Error: <message or Unknown error occurred>` text otherwise — and for
every tool and every network outcome the dispatcher returns a structured
single-item response rather than letting the exception escape. -/
theorem C9_error_containment :
    (∀ t : Thrown, (handleError t).isError = true)
    ∧ (∀ e : McpError, handleError (.mcp e)
        = { content := [.text ("Error " ++ toString e.code ++ ": " ++ e.message
              ++ detailsSuffix e.details)],
            isError := true })
    ∧ (∀ m : String, handleError (.jsError m)
        = { content := [.text ("Error: " ++ m)], isError := true })
    ∧ (∀ v : Json, isMcpErrorShaped v = false →
        handleError (.raw v)
          = { content := [.text "Error: Unknown error occurred"], isError := true })
    ∧ (∀ (c : ToolCall) (net : Net), (dispatch c net).1.content.length = 1) := by
  refine ⟨?_, ?_, ?_, ?_, ?_⟩
  · intro t
    cases t with
    | mcp e => rfl
    | jsError m => rfl
    | raw v =>
        simp only [handleError]
        split <;> rfl
  · intro e; rfl
  · intro m; rfl
  · intro v h
    simp [handleError, h]
  · intro c net
    cases c <;> simp only [dispatch] <;> (repeat' split) <;>
      first
        | rfl
        | apply handleError_content_length
        | apply getTasksShape_content_length
        | apply consoleLogsShape_content_length
        | apply networkLogsShape_content_length
        | apply actionLogsShape_content_length

/-- Witness for C9: a raw thrown value that is not error-shaped renders
as the generic unknown-error response, and a concrete dispatch returns a
single content item. -/
theorem C9_error_containment_witness :
    isMcpErrorShaped (.str "boom") = false
    ∧ handleError (.raw (.str "boom"))
        = { content := [.text "Error: Unknown error occurred"], isError := true }
    ∧ (dispatch .get_projects (mkNet (.failure (.request "down")))).1.content.length = 1 := by
  refine ⟨rfl, ?_, ?_⟩
  · exact C9_error_containment.2.2.2.1 (.str "boom") rfl
  · exact C9_error_containment.2.2.2.2 .get_projects (mkNet (.failure (.request "down")))

/-- C10: the `get_tasks` handler emits the project-selection hint exactly
when the adapter result is falsy or of boolean type; a remote `/tasks`
body of `true` therefore produces the hint, while any task array (empty
or not) is rendered as `Found <n> tasks:` plus the pretty-printed array. -/
theorem C10_get_tasks_hint_condition :
    (∀ r : Json, (jsTruthy r = false ∨ r.isBool = true) →
        getTasksShape r = textResponse noProjectHint)
    ∧ (∀ r : Json, jsTruthy r = true → r.isBool = false →
        getTasksShape r
            = textResponse ("Found " ++ jsLen r ++ " tasks:\n\n" ++ jsonStringify r)
          ∧ getTasksShape r ≠ textResponse noProjectHint)
    ∧ (dispatch .get_tasks (mkNet (.success (.bool true)))).1 = textResponse noProjectHint
    ∧ (∀ xs : List Json,
        (dispatch .get_tasks (mkNet (.success (.arr xs)))).1
          = textResponse ("Found " ++ toString xs.length ++ " tasks:\n\n"
              ++ jsonStringify (.arr xs))) := by
  refine ⟨?_, ?_, ?_, ?_⟩
  · intro r h
    rcases h with h | h <;> simp [getTasksShape, h]
  · intro r h1 h2
    constructor
    · simp [getTasksShape, h1, h2]
    · intro heq
      rw [show getTasksShape r
          = textResponse ("Found " ++ jsLen r ++ " tasks:\n\n" ++ jsonStringify r) from by
        simp [getTasksShape, h1, h2]] at heq
      have h3 : "Found " ++ jsLen r ++ " tasks:\n\n" ++ jsonStringify r = noProjectHint := by
        have h5 := congrArg ToolResponse.content heq
        simpa [textResponse] using h5
      have h4 := congrArg String.data h3
      simp only [String.data_append] at h4
      simp [noProjectHint] at h4
  · rfl
  · intro xs
    cases xs with
    | nil => rfl
    | cons x xs => rfl

/-- Witness for C10 at concrete inputs: `false` and `true` results give
the hint; a one-task array gives the `Found 1 tasks:` rendering. -/
theorem C10_get_tasks_hint_condition_witness :
    getTasksShape (.bool false) = textResponse noProjectHint
    ∧ getTasksShape (.arr []) ≠ textResponse noProjectHint
    ∧ (dispatch .get_tasks (mkNet (.success (.arr [.obj [("uuid", .str "u1")]])))).1
        = textResponse ("Found 1 tasks:\n\n" ++ jsonStringify (.arr [.obj [("uuid", .str "u1")]])) := by
  refine ⟨?_, ?_, ?_⟩
  · exact C10_get_tasks_hint_condition.1 (.bool false) (Or.inl rfl)
  · exact (C10_get_tasks_hint_condition.2.1 (.arr []) rfl rfl).2
  · exact C10_get_tasks_hint_condition.2.2.2 [.obj [("uuid", .str "u1")]]
